import Mathlib

/-!
Shallow embedding of `src/public/downloads/scanner-app/native/ricoh-scanner.cc`,
a N-API binding over the proprietary Ricoh/Fujitsu `PfuSs` scanner SDK.

The vendor SDK is a closed black box; it is modelled as an oracle (`Sdk`)
recording the return code of each vendor call and the values the vendor
writes through out-parameters.  The binding's two globals (`g_hScanner`,
`g_bInitialized`) are an explicit state (`GState`), and each exported
operation returns its marshalled result record together with the successor
state and the list of vendor calls it issued, in order (`List Ev`).

A `HANDLE` is a `Nat` with `0` standing for `NULL`.  `SS_SUCCESS` and the
scan-parameter constants are opaque vendor values; only their names and
pairwise distinctness (guaranteed by the vendor header) are used.
-/

namespace RicohScanner

/-- The vendor status code every call is compared against (`SS_SUCCESS`). -/
def SS_SUCCESS : Nat := 0

/-- Vendor pixel-type constant for black-and-white (`SS_PIXELTYPE_BW`). -/
def SS_PIXELTYPE_BW : Nat := 0

/-- Vendor pixel-type constant for grayscale (`SS_PIXELTYPE_GRAY`). -/
def SS_PIXELTYPE_GRAY : Nat := 1

/-- Vendor pixel-type constant for colour (`SS_PIXELTYPE_COLOR`). -/
def SS_PIXELTYPE_COLOR : Nat := 2

/-- Vendor duplex-off constant (`SS_DUPLEX_OFF`). -/
def SS_DUPLEX_OFF : Nat := 0

/-- Vendor duplex-on constant (`SS_DUPLEX_ON`). -/
def SS_DUPLEX_ON : Nat := 1

/-- Vendor A4 paper-size constant (`SS_PAPERSIZE_A4`). -/
def SS_PAPERSIZE_A4 : Nat := 5

/-- `SS_DEVICE_INFO`: the fields of the vendor device-info record the
binding reads (`szModelName`, `szSerialNumber`). -/
structure SS_DEVICE_INFO where
  szModelName : String
  szSerialNumber : String
deriving DecidableEq, Repr

/-- `SS_SCAN_PARAM`: the scan-parameter record the binding fills and hands
to `PfuSsSetScanParam`. -/
structure SS_SCAN_PARAM where
  dwResolution : Nat
  dwPixelType : Nat
  dwDuplex : Nat
  dwPaperSize : Nat
deriving DecidableEq, Repr

/-- Oracle for the closed vendor SDK: the return code of each `PfuSs` call
and the data the vendor writes through out-parameters.  `imageCodes` lists
the return codes of successive `PfuSsGetImageData` calls in one scan
session; once the list is exhausted the call reports non-success (an
infinite all-success stream would make the C `while` loop diverge and never
return, so it has no place in a model of the returning executions). -/
structure Sdk where
  initRet : Nat
  deviceCountRet : Nat
  deviceCount : Nat
  deviceInfoRet : Nat → Nat
  deviceInfo : Nat → SS_DEVICE_INFO
  openRet : Nat
  openHandle : Nat
  setParamRet : Nat
  startScanRet : Nat
  imageCodes : List Nat

/-- The binding's two globals: `static HANDLE g_hScanner = NULL` (0 models
`NULL`) and `static bool g_bInitialized = false`. -/
structure GState where
  g_hScanner : Nat
  g_bInitialized : Bool
deriving DecidableEq, Repr

/-- One vendor SDK call, as it appears in the call trace of an operation. -/
inductive Ev where
  | pfuSsInit
  | pfuSsUninit
  | pfuSsGetDeviceCount
  | pfuSsGetDeviceInfo (i : Nat)
  | pfuSsOpenDevice (id : Int)
  | pfuSsSetScanParam (h : Nat) (p : SS_SCAN_PARAM)
  | pfuSsStartScan (h : Nat)
  | pfuSsGetImageData (h : Nat)
  | pfuSsFreeImageData
  | pfuSsCloseDevice (h : Nat)
deriving DecidableEq, Repr

/-- The key/value record `Initialize` returns; keys the C code never sets
on a path are `none` there. -/
structure InitResult where
  success : Bool
  message : Option String
  error : Option String
  errorCode : Option Nat
deriving DecidableEq, Repr

/-- One element of the array `GetScanners` returns. -/
structure ScannerRec where
  id : Nat
  name : String
  vendor : String
  serialNumber : String
deriving DecidableEq, Repr

/-- The key/value record `Scan` returns; keys the C code never sets on a
path are `none` there. -/
structure ScanResult where
  success : Bool
  error : Option String
  errorCode : Option Nat
  pageCount : Option Nat
  outputPath : Option String
deriving DecidableEq, Repr

/-- The options record `Scan` reads from its first argument. -/
structure ScanOptions where
  scannerId : Int
  resolution : Int
  colorMode : String
  duplex : Bool
  outputPath : String
deriving DecidableEq, Repr

/-- Output of `Initialize`: result record, successor globals, vendor calls. -/
structure InitOut where
  result : InitResult
  state : GState
  trace : List Ev
deriving DecidableEq, Repr

/-- Output of `GetScanners`.  The N-API array is sparse: `scanners.Set(i, r)`
is only executed when the info query at `i` succeeded, so the array is a
list of `Option ScannerRec` over the device indices, `none` at a hole. -/
structure ScannersOut where
  scanners : List (Option ScannerRec)
  state : GState
  trace : List Ev
deriving DecidableEq, Repr

/-- Output of `Scan`. -/
structure ScanOut where
  result : ScanResult
  state : GState
  trace : List Ev
deriving DecidableEq, Repr

/-- Output of `Cleanup` (the C function returns `void`). -/
structure CleanupOut where
  state : GState
  trace : List Ev
deriving DecidableEq, Repr

/-- `Initialize` (ricoh-scanner.cc, lines 20-44). -/
def Initialize (sdk : Sdk) (s : GState) : InitOut :=
  if s.g_bInitialized then
    { result := { success := true, message := some ("Already initialized"),
                  error := none, errorCode := none },
      state := s, trace := [] }
  else
    let dwRet := sdk.initRet
    if dwRet ≠ SS_SUCCESS then
      { result := { success := false, message := none,
                    error := some ("Failed to initialize Ricoh SDK"),
                    errorCode := some dwRet },
        state := s, trace := [.pfuSsInit] }
    else
      { result := { success := true,
                    message := some ("Ricoh SDK initialized successfully"),
                    error := none, errorCode := none },
        state := { s with g_bInitialized := true },
        trace := [.pfuSsInit] }

/-- `GetScanners` (ricoh-scanner.cc, lines 46-87). -/
def GetScanners (sdk : Sdk) (s : GState) : ScannersOut :=
  if !s.g_bInitialized then
    { scanners := [], state := s, trace := [] }
  else
    let dwRet := sdk.deviceCountRet
    let dwScannerCount := sdk.deviceCount
    if dwRet ≠ SS_SUCCESS ∨ dwScannerCount = 0 then
      { scanners := [], state := s, trace := [.pfuSsGetDeviceCount] }
    else
      { scanners := (List.range dwScannerCount).map (fun i =>
          if sdk.deviceInfoRet i = SS_SUCCESS then
            some { id := i, name := (sdk.deviceInfo i).szModelName,
                   vendor := "Ricoh/Fujitsu",
                   serialNumber := (sdk.deviceInfo i).szSerialNumber }
          else none),
        state := s,
        trace := .pfuSsGetDeviceCount ::
          (List.range dwScannerCount).map (fun i => .pfuSsGetDeviceInfo i) }

/-- The `SS_SCAN_PARAM` value `Scan` builds from the options
(ricoh-scanner.cc, lines 117-140).  `dwResolution = resolution` is the C
`int` → `DWORD` conversion, reduction modulo 2^32. -/
def buildScanParam (options : ScanOptions) : SS_SCAN_PARAM :=
  { dwResolution := (options.resolution % 4294967296).toNat,
    dwPixelType :=
      if options.colorMode = "color" then SS_PIXELTYPE_COLOR
      else if options.colorMode = "grayscale" then SS_PIXELTYPE_GRAY
      else SS_PIXELTYPE_BW,
    dwDuplex := if options.duplex then SS_DUPLEX_ON else SS_DUPLEX_OFF,
    dwPaperSize := SS_PAPERSIZE_A4 }

/-- `pageCount` computed by the acquisition loop (ricoh-scanner.cc, lines
166-178): number of `PfuSsGetImageData` calls before the first non-success. -/
def pullCount : List Nat → Nat
  | [] => 0
  | c :: rest => if c = SS_SUCCESS then pullCount rest + 1 else 0

/-- Vendor calls issued by the acquisition loop on handle `h`: each
successful `PfuSsGetImageData` is followed by `PfuSsFreeImageData`; the
first non-success call ends the loop. -/
def pullTrace (h : Nat) : List Nat → List Ev
  | [] => [.pfuSsGetImageData h]
  | c :: rest =>
    if c = SS_SUCCESS then
      .pfuSsGetImageData h :: .pfuSsFreeImageData :: pullTrace h rest
    else [.pfuSsGetImageData h]

/-- `Scan` (ricoh-scanner.cc, lines 89-186).  `PfuSsOpenDevice` receives
`&g_hScanner`, so the handle the vendor writes (`openHandle`) lands in the
global.  Note the two mid-function failure paths close the device but do
NOT reset `g_hScanner`; only the success path does. -/
def Scan (sdk : Sdk) (options : ScanOptions) (s : GState) : ScanOut :=
  if !s.g_bInitialized then
    { result := { success := false, error := some ("SDK not initialized"),
                  errorCode := none, pageCount := none, outputPath := none },
      state := s, trace := [] }
  else
    let dwRet := sdk.openRet
    let s1 : GState := { s with g_hScanner := sdk.openHandle }
    if dwRet ≠ SS_SUCCESS then
      { result := { success := false, error := some ("Failed to open scanner"),
                    errorCode := some dwRet, pageCount := none, outputPath := none },
        state := s1, trace := [.pfuSsOpenDevice options.scannerId] }
    else
      let scanParam := buildScanParam options
      let dwRet2 := sdk.setParamRet
      if dwRet2 ≠ SS_SUCCESS then
        { result := { success := false,
                      error := some ("Failed to set scan parameters"),
                      errorCode := some dwRet2, pageCount := none, outputPath := none },
          state := s1,
          trace := [.pfuSsOpenDevice options.scannerId,
                    .pfuSsSetScanParam s1.g_hScanner scanParam,
                    .pfuSsCloseDevice s1.g_hScanner] }
      else
        let dwRet3 := sdk.startScanRet
        if dwRet3 ≠ SS_SUCCESS then
          { result := { success := false, error := some ("Failed to start scan"),
                        errorCode := some dwRet3, pageCount := none, outputPath := none },
            state := s1,
            trace := [.pfuSsOpenDevice options.scannerId,
                      .pfuSsSetScanParam s1.g_hScanner scanParam,
                      .pfuSsStartScan s1.g_hScanner,
                      .pfuSsCloseDevice s1.g_hScanner] }
        else
          { result := { success := true, error := none, errorCode := none,
                        pageCount := some (pullCount sdk.imageCodes),
                        outputPath := some options.outputPath },
            state := { s1 with g_hScanner := 0 },
            trace := [.pfuSsOpenDevice options.scannerId,
                      .pfuSsSetScanParam s1.g_hScanner scanParam,
                      .pfuSsStartScan s1.g_hScanner] ++
                     pullTrace s1.g_hScanner sdk.imageCodes ++
                     [.pfuSsCloseDevice s1.g_hScanner] }

/-- `Cleanup` (ricoh-scanner.cc, lines 188-202).  The return codes of
`PfuSsCloseDevice` and `PfuSsUninitialize` are discarded, so no oracle is
needed. -/
def Cleanup (s : GState) : CleanupOut :=
  let s1 := if s.g_hScanner ≠ 0 then { s with g_hScanner := 0 } else s
  let t1 : List Ev := if s.g_hScanner ≠ 0 then [.pfuSsCloseDevice s.g_hScanner] else []
  let s2 := if s1.g_bInitialized then { s1 with g_bInitialized := false } else s1
  let t2 : List Ev := if s1.g_bInitialized then [.pfuSsUninit] else []
  { state := s2, trace := t1 ++ t2 }

/-- Concrete oracle fixture: every call succeeds, two devices are reported
with the info query failing at index 1, and a scan session yields two pages
before code 7 ends the acquisition loop. -/
def sdkAll : Sdk :=
  { initRet := 0, deviceCountRet := 0, deviceCount := 2,
    deviceInfoRet := fun i => if i = 0 then 0 else 9,
    deviceInfo := fun _ => { szModelName := "fi-7160", szSerialNumber := "SN001" },
    openRet := 0, openHandle := 1, setParamRet := 0, startScanRet := 0,
    imageCodes := [0, 0, 7] }

/-- Fixture whose `PfuSsInitialize` fails with code 3. -/
def sdkInitFail : Sdk := { sdkAll with initRet := 3 }

/-- Fixture whose `PfuSsOpenDevice` fails with code 4. -/
def sdkOpenFail : Sdk := { sdkAll with openRet := 4 }

/-- Fixture whose `PfuSsGetDeviceCount` fails with code 5. -/
def sdkCountFail : Sdk := { sdkAll with deviceCountRet := 5 }

/-- Fixture whose `PfuSsSetScanParam` fails with code 7. -/
def sdkSetFail : Sdk := { sdkAll with setParamRet := 7 }

/-- Fixture whose `PfuSsStartScan` fails with code 8. -/
def sdkStartFail : Sdk := { sdkAll with startScanRet := 8 }

/-- Globals after a successful initialize: no handle, initialized. -/
def sInit : GState := { g_hScanner := 0, g_bInitialized := true }

/-- Pristine globals: no handle, not initialized. -/
def sFresh : GState := { g_hScanner := 0, g_bInitialized := false }

/-- A concrete options record. -/
def opts0 : ScanOptions :=
  { scannerId := 0, resolution := 300, colorMode := "color",
    duplex := true, outputPath := "out.pdf" }

/-- Claim C1 is violated by the code: on a scan whose configure step fails
(vendor code 7 from `PfuSsSetScanParam`), scan closes handle 1 but returns
with `g_hScanner` still equal to 1 rather than NULL, and the following
cleanup calls `PfuSsCloseDevice` on that already-closed handle a second
time. -/
theorem scan_retains_stale_handle :
    (Scan sdkSetFail opts0 sInit).state.g_hScanner = 1 ∧
    Ev.pfuSsCloseDevice 1 ∈ (Scan sdkSetFail opts0 sInit).trace ∧
    Ev.pfuSsCloseDevice 1 ∈ (Cleanup (Scan sdkSetFail opts0 sInit).state).trace := by
  decide

/-- Claim C6 as stated fails: with the SDK already initialized, an
initialize invocation issues no vendor call at all (`PfuSsInitialize` is
skipped), so forwarding is conditional on the binding's own state. -/
theorem initialize_skips_vendor_call :
    sInit.g_bInitialized = true ∧ (Initialize sdkAll sInit).trace = [] := by
  decide

/-- Claim C6 amended: each operation issues its corresponding vendor call
exactly when its state guard allows it — initialize issues PfuSsInitialize
iff not yet initialized, getScanners issues PfuSsGetDeviceCount iff
initialized, scan issues PfuSsOpenDevice iff initialized, and cleanup
issues PfuSsUninitialize iff initialized. -/
theorem vendor_forwarding_guarded (sdk : Sdk) (options : ScanOptions) (s : GState) :
    (Ev.pfuSsInit ∈ (Initialize sdk s).trace ↔ s.g_bInitialized = false) ∧
    (Ev.pfuSsGetDeviceCount ∈ (GetScanners sdk s).trace ↔ s.g_bInitialized = true) ∧
    (Ev.pfuSsOpenDevice options.scannerId ∈ (Scan sdk options s).trace ↔
      s.g_bInitialized = true) ∧
    (Ev.pfuSsUninit ∈ (Cleanup s).trace ↔ s.g_bInitialized = true) := by
  obtain ⟨h, b⟩ := s
  cases b <;>
    refine ⟨?_, ?_, ?_, ?_⟩ <;>
    simp [Initialize, GetScanners, Scan, Cleanup] <;>
    split <;> (try split) <;> (try split) <;> simp

/-- Claim C7: cleanup always leaves the pristine state (handle NULL, not
initialized) whatever state it starts from, and a second consecutive
cleanup changes nothing and issues no vendor calls. -/
theorem cleanup_pristine_and_idempotent (s : GState) :
    (Cleanup s).state = { g_hScanner := 0, g_bInitialized := false } ∧
    (Cleanup (Cleanup s).state).state = (Cleanup s).state ∧
    (Cleanup (Cleanup s).state).trace = [] := by
  obtain ⟨h, b⟩ := s
  cases b <;> by_cases hh : h = 0 <;> simp [Cleanup, hh]

/-- Claim C8: when the SDK is already initialized, initialize returns
success with message "Already initialized", leaves the globals unchanged,
and does not invoke PfuSsInitialize again. -/
theorem initialize_idempotent (sdk : Sdk) (s : GState)
    (hInit : s.g_bInitialized = true) :
    (Initialize sdk s).result =
      { success := true, message := some ("Already initialized"),
        error := none, errorCode := none } ∧
    (Initialize sdk s).state = s ∧ (Initialize sdk s).trace = [] := by
  simp [Initialize, hInit]

/-- Witness for `initialize_idempotent` at a concrete initialized state. -/
theorem initialize_idempotent_witness :
    (Initialize sdkAll sInit).result =
      { success := true, message := some ("Already initialized"),
        error := none, errorCode := none } ∧
    (Initialize sdkAll sInit).state = sInit ∧ (Initialize sdkAll sInit).trace = [] :=
  initialize_idempotent sdkAll sInit rfl

/-- Claim C9: getScanners never reports an error: when not initialized it
returns an empty array and issues no vendor call; when the device-count
query fails, or reports zero devices, it returns the same empty array as
the no-attached-scanners case. -/
theorem getScanners_silent (sdk : Sdk) (s : GState) :
    (s.g_bInitialized = false →
      (GetScanners sdk s).scanners = [] ∧ (GetScanners sdk s).trace = []) ∧
    (s.g_bInitialized = true → sdk.deviceCountRet ≠ SS_SUCCESS →
      (GetScanners sdk s).scanners = []) ∧
    (s.g_bInitialized = true → sdk.deviceCount = 0 →
      (GetScanners sdk s).scanners = []) :=
  ⟨fun hb => by simp [GetScanners, hb],
   fun hb hc => by simp [GetScanners, hb, hc],
   fun hb hc => by simp [GetScanners, hb, hc]⟩

/-- Witness for `getScanners_silent`: the not-initialized case and the
failing-count case, at concrete inputs. -/
theorem getScanners_silent_witness :
    ((GetScanners sdkAll sFresh).scanners = [] ∧ (GetScanners sdkAll sFresh).trace = []) ∧
    (GetScanners sdkCountFail sInit).scanners = [] :=
  ⟨(getScanners_silent sdkAll sFresh).1 rfl,
   (getScanners_silent sdkCountFail sInit).2.1 rfl (by decide)⟩

/-- Claim C2 as stated fails: in this scan the pull-page call eventually
returns non-success code 7 (the oracle's third image code), yet scan
returns success=true with no errorCode instead of a failure record
forwarding 7. -/
theorem scan_swallows_pull_failure :
    sdkAll.imageCodes = [0, 0, 7] ∧ (7 : Nat) ≠ SS_SUCCESS ∧
    Ev.pfuSsGetImageData 1 ∈ (Scan sdkAll opts0 sInit).trace ∧
    (Scan sdkAll opts0 sInit).result.success = true ∧
    (Scan sdkAll opts0 sInit).result.errorCode = none := by
  decide

/-- Claim C2 amended: a failing PfuSsInitialize, PfuSsOpenDevice,
PfuSsSetScanParam or PfuSsStartScan is reported as success=false with
errorCode equal to the vendor return value (scan closing the device first
for the latter two); but getScanners swallows a failing device-count query
by returning an empty array, and a non-success pull-page call merely ends
acquisition with scan still returning success=true. -/
theorem vendor_error_forwarding (sdk : Sdk) (options : ScanOptions) (s : GState) :
    (s.g_bInitialized = false → sdk.initRet ≠ SS_SUCCESS →
      (Initialize sdk s).result =
        { success := false, message := none,
          error := some ("Failed to initialize Ricoh SDK"),
          errorCode := some sdk.initRet }) ∧
    (s.g_bInitialized = true → sdk.openRet ≠ SS_SUCCESS →
      (Scan sdk options s).result =
        { success := false, error := some ("Failed to open scanner"),
          errorCode := some sdk.openRet, pageCount := none, outputPath := none }) ∧
    (s.g_bInitialized = true → sdk.openRet = SS_SUCCESS →
        sdk.setParamRet ≠ SS_SUCCESS →
      (Scan sdk options s).result =
        { success := false, error := some ("Failed to set scan parameters"),
          errorCode := some sdk.setParamRet, pageCount := none, outputPath := none } ∧
      Ev.pfuSsCloseDevice sdk.openHandle ∈ (Scan sdk options s).trace) ∧
    (s.g_bInitialized = true → sdk.openRet = SS_SUCCESS →
        sdk.setParamRet = SS_SUCCESS → sdk.startScanRet ≠ SS_SUCCESS →
      (Scan sdk options s).result =
        { success := false, error := some ("Failed to start scan"),
          errorCode := some sdk.startScanRet, pageCount := none, outputPath := none } ∧
      Ev.pfuSsCloseDevice sdk.openHandle ∈ (Scan sdk options s).trace) ∧
    (s.g_bInitialized = true → sdk.deviceCountRet ≠ SS_SUCCESS →
      (GetScanners sdk s).scanners = []) ∧
    (s.g_bInitialized = true → sdk.openRet = SS_SUCCESS →
        sdk.setParamRet = SS_SUCCESS → sdk.startScanRet = SS_SUCCESS →
      (Scan sdk options s).result.success = true) :=
  ⟨fun hb h1 => by simp [Initialize, hb, h1],
   fun hb h1 => by simp [Scan, hb, h1],
   fun hb h1 h2 => by simp [Scan, hb, h1, h2],
   fun hb h1 h2 h3 => by simp [Scan, hb, h1, h2, h3],
   fun hb h1 => by simp [GetScanners, hb, h1],
   fun hb h1 h2 h3 => by simp [Scan, hb, h1, h2, h3]⟩

/-- Witness for `vendor_error_forwarding`: the failing-initialize and
failing-open conjuncts at concrete inputs. -/
theorem vendor_error_forwarding_witness :
    (Initialize sdkInitFail sFresh).result =
      { success := false, message := none,
        error := some ("Failed to initialize Ricoh SDK"), errorCode := some 3 } ∧
    (Scan sdkOpenFail opts0 sInit).result =
      { success := false, error := some ("Failed to open scanner"),
        errorCode := some 4, pageCount := none, outputPath := none } :=
  ⟨(vendor_error_forwarding sdkInitFail opts0 sFresh).1 rfl (by decide),
   (vendor_error_forwarding sdkOpenFail opts0 sInit).2.1 rfl (by decide)⟩

/-- The call sequence claimed for scan, written from the claim's wording:
open first; configure only if open succeeded; start only if configure
succeeded; pull pages repeatedly until the vendor reports non-success only
if start succeeded; and a single close on every path where open succeeded. -/
def scanTraceSpec (sdk : Sdk) (options : ScanOptions) (h : Nat) : List Ev :=
  [.pfuSsOpenDevice options.scannerId] ++
  if sdk.openRet ≠ SS_SUCCESS then []
  else
    ([.pfuSsSetScanParam h (buildScanParam options)] ++
      (if sdk.setParamRet ≠ SS_SUCCESS then []
       else [.pfuSsStartScan h] ++
         (if sdk.startScanRet ≠ SS_SUCCESS then []
          else pullTrace h sdk.imageCodes)) ++
      [.pfuSsCloseDevice h])

/-- The acquisition loop never closes the device. -/
theorem pullTrace_count_close (h h2 : Nat) (codes : List Nat) :
    (pullTrace h codes).count (Ev.pfuSsCloseDevice h2) = 0 := by
  induction codes with
  | nil => simp [pullTrace]
  | cons c rest ih => by_cases hc : c = SS_SUCCESS <;> simp [pullTrace, hc, ih]

/-- Claim C3: on an initialized SDK, scan issues the vendor calls in
exactly the order open, configure, start, pull-pages until non-success,
close; a later step is never invoked after an earlier one failed, and on
every path where the open succeeded the device is closed exactly once
(and never when the open failed). -/
theorem scan_call_order (sdk : Sdk) (options : ScanOptions) (s : GState)
    (hInit : s.g_bInitialized = true) :
    (Scan sdk options s).trace = scanTraceSpec sdk options sdk.openHandle ∧
    (sdk.openRet = SS_SUCCESS →
      (Scan sdk options s).trace.count (Ev.pfuSsCloseDevice sdk.openHandle) = 1) ∧
    (sdk.openRet ≠ SS_SUCCESS →
      (Scan sdk options s).trace.count (Ev.pfuSsCloseDevice sdk.openHandle) = 0) := by
  by_cases h1 : sdk.openRet = SS_SUCCESS <;>
    by_cases h2 : sdk.setParamRet = SS_SUCCESS <;>
      by_cases h3 : sdk.startScanRet = SS_SUCCESS <;>
        simp [Scan, scanTraceSpec, hInit, h1, h2, h3, List.count_append,
              List.count_cons, pullTrace_count_close]

/-- Witness for `scan_call_order`: the all-success fixture matches the
claimed sequence and closes once; the failing-open fixture never closes. -/
theorem scan_call_order_witness :
    (Scan sdkAll opts0 sInit).trace = scanTraceSpec sdkAll opts0 1 ∧
    (Scan sdkAll opts0 sInit).trace.count (Ev.pfuSsCloseDevice 1) = 1 ∧
    (Scan sdkOpenFail opts0 sInit).trace.count (Ev.pfuSsCloseDevice 1) = 0 :=
  ⟨(scan_call_order sdkAll opts0 sInit rfl).1,
   (scan_call_order sdkAll opts0 sInit rfl).2.1 rfl,
   (scan_call_order sdkOpenFail opts0 sInit rfl).2.2 (by decide)⟩

/-- The loop counter equals the length of the prefix of successful pull
calls. -/
theorem pullCount_eq_takeWhile (codes : List Nat) :
    pullCount codes = (codes.takeWhile (fun c => c == SS_SUCCESS)).length := by
  induction codes with
  | nil => rfl
  | cons c rest ih =>
    by_cases hc : c = SS_SUCCESS <;> simp [pullCount, List.takeWhile_cons, hc, ih]

/-- Claim C4: on an initialized SDK, when open, configure and start all
succeed, scan returns success=true, pageCount equal to the number of
successful pull-page calls before the first non-success, and outputPath
equal to the caller-supplied outputPath. -/
theorem scan_success_record (sdk : Sdk) (options : ScanOptions) (s : GState)
    (hInit : s.g_bInitialized = true) (hOpen : sdk.openRet = SS_SUCCESS)
    (hSet : sdk.setParamRet = SS_SUCCESS) (hStart : sdk.startScanRet = SS_SUCCESS) :
    (Scan sdk options s).result =
      { success := true, error := none, errorCode := none,
        pageCount := some ((sdk.imageCodes.takeWhile (fun c => c == SS_SUCCESS)).length),
        outputPath := some options.outputPath } := by
  simp [Scan, hInit, hOpen, hSet, hStart, pullCount_eq_takeWhile]

/-- Witness for `scan_success_record`: two pages before code 7 ends the
session. -/
theorem scan_success_record_witness :
    (Scan sdkAll opts0 sInit).result =
      { success := true, error := none, errorCode := none,
        pageCount := some 2, outputPath := some ("out.pdf") } :=
  scan_success_record sdkAll opts0 sInit rfl rfl rfl rfl

/-- Claim C5: when initialized and the device-count query succeeds, the
returned array has one slot per reported device; slot i carries the record
⟨i, model name, "Ricoh/Fujitsu", serial number⟩ exactly when the info query
at i succeeded, and is an empty hole otherwise. -/
theorem getScanners_enumeration (sdk : Sdk) (s : GState) (i : Nat)
    (hInit : s.g_bInitialized = true) (hRet : sdk.deviceCountRet = SS_SUCCESS)
    (hi : i < sdk.deviceCount) :
    (GetScanners sdk s).scanners.length = sdk.deviceCount ∧
    (GetScanners sdk s).scanners[i]? =
      some (if sdk.deviceInfoRet i = SS_SUCCESS then
              some { id := i, name := (sdk.deviceInfo i).szModelName,
                     vendor := "Ricoh/Fujitsu",
                     serialNumber := (sdk.deviceInfo i).szSerialNumber }
            else none) := by
  have hcnt : sdk.deviceCount ≠ 0 := by omega
  simp [GetScanners, hInit, hRet, hcnt, List.getElem?_map, List.getElem?_range, hi]

/-- Witness for `getScanners_enumeration`: two devices, the record present
at index 0 and a hole at index 1. -/
theorem getScanners_enumeration_witness :
    (GetScanners sdkAll sInit).scanners.length = 2 ∧
    (GetScanners sdkAll sInit).scanners[0]? =
      some (some { id := 0, name := "fi-7160", vendor := "Ricoh/Fujitsu",
                   serialNumber := "SN001" }) ∧
    (GetScanners sdkAll sInit).scanners[1]? = some none :=
  ⟨(getScanners_enumeration sdkAll sInit 0 rfl rfl (by decide)).1,
   (getScanners_enumeration sdkAll sInit 0 rfl rfl (by decide)).2,
   (getScanners_enumeration sdkAll sInit 1 rfl rfl (by decide)).2⟩

/-- The acquisition loop never issues a configure call. -/
theorem pullTrace_no_setParam (h h2 : Nat) (p : SS_SCAN_PARAM) (codes : List Nat) :
    Ev.pfuSsSetScanParam h2 p ∉ pullTrace h codes := by
  induction codes with
  | nil => simp [pullTrace]
  | cons c rest ih => by_cases hc : c = SS_SUCCESS <;> simp [pullTrace, hc, ih]

/-- Claim C10: whatever the options, every scan-parameter record scan hands
to PfuSsSetScanParam has paper size A4; pixel type COLOR exactly for
colorMode "color", GRAY exactly for "grayscale", and BW exactly for every
other colorMode; and duplex on exactly when the duplex flag is set. -/
theorem scan_param_mapping (sdk : Sdk) (options : ScanOptions) (s : GState)
    (h : Nat) (p : SS_SCAN_PARAM)
    (hmem : Ev.pfuSsSetScanParam h p ∈ (Scan sdk options s).trace) :
    p.dwPaperSize = SS_PAPERSIZE_A4 ∧
    (p.dwPixelType = SS_PIXELTYPE_COLOR ↔ options.colorMode = "color") ∧
    (p.dwPixelType = SS_PIXELTYPE_GRAY ↔ options.colorMode = "grayscale") ∧
    (p.dwPixelType = SS_PIXELTYPE_BW ↔
      (options.colorMode ≠ "color" ∧ options.colorMode ≠ "grayscale")) ∧
    (p.dwDuplex = SS_DUPLEX_ON ↔ options.duplex = true) ∧
    (p.dwDuplex = SS_DUPLEX_OFF ↔ options.duplex = false) := by
  have hp : p = buildScanParam options := by
    obtain ⟨hs, b⟩ := s
    cases b <;>
      by_cases h1 : sdk.openRet = SS_SUCCESS <;>
        by_cases h2 : sdk.setParamRet = SS_SUCCESS <;>
          by_cases h3 : sdk.startScanRet = SS_SUCCESS <;>
            simp [Scan, h1, h2, h3, pullTrace_no_setParam] at hmem <;>
            tauto
  subst hp
  by_cases hc : options.colorMode = "color" <;>
    by_cases hg : options.colorMode = "grayscale" <;>
      cases hdup : options.duplex <;>
        simp_all [buildScanParam, SS_PIXELTYPE_COLOR, SS_PIXELTYPE_GRAY,
                  SS_PIXELTYPE_BW, SS_DUPLEX_ON, SS_DUPLEX_OFF, SS_PAPERSIZE_A4]

/-- Witness for `scan_param_mapping`: the configure event of the
all-success scan at the colour/duplex options. -/
theorem scan_param_mapping_witness :
    (buildScanParam opts0).dwPaperSize = SS_PAPERSIZE_A4 ∧
    ((buildScanParam opts0).dwPixelType = SS_PIXELTYPE_COLOR ↔
      opts0.colorMode = "color") ∧
    ((buildScanParam opts0).dwPixelType = SS_PIXELTYPE_GRAY ↔
      opts0.colorMode = "grayscale") ∧
    ((buildScanParam opts0).dwPixelType = SS_PIXELTYPE_BW ↔
      (opts0.colorMode ≠ "color" ∧ opts0.colorMode ≠ "grayscale")) ∧
    ((buildScanParam opts0).dwDuplex = SS_DUPLEX_ON ↔ opts0.duplex = true) ∧
    ((buildScanParam opts0).dwDuplex = SS_DUPLEX_OFF ↔ opts0.duplex = false) :=
  scan_param_mapping sdkAll opts0 sInit 1 (buildScanParam opts0) (by decide)

end RicohScanner
